import Mathlib

/-!
Shallow embedding of `src/streamlit_app.py` (document question-answering app).

The script is re-executed on each user interaction; we model one execution
as a pure function from the environment (secrets store contents, uploaded
file, question text, remote service behaviour) to the ordered list of
observable effects the script performs (UI widgets shown, messages
displayed, the outbound completion request, the incrementally rendered
output, and the `st.stop` control effect).
-/

namespace GameRuleQA

/-- A chat message handed to the completion API: a role tag and a content string
(the dictionaries built at lines 58-65 of `streamlit_app.py`). -/
structure Message where
  role : String
  content : String
deriving DecidableEq

/-- Fixed UI strings of the script. -/
def appTitle : String := "📄 Document Question Answering"

/-- The description passed to `st.write` (the two adjacent Python string
literals, concatenated). -/
def appDescription : String :=
  "Upload a document (.txt or .md) and ask a question. The app will use an AI model to find the answer within the document. You\x27ll need an OpenAI API key to use this app. You can get one from the [OpenAI Platform](https://platform.openai.com/account/api-keys)."

/-- Error shown when the secret lookup raises (line 18-19). -/
def keyMissingMsg : String :=
  "ERROR: OpenAI API key not found. Please add it to your secrets file."

/-- Info shown when the key is present but falsy (lines 26-27). -/
def keyEmptyInfoMsg : String :=
  "Please add your OpenAI API key to your secrets file to continue."

/-- Label of the file uploader (line 36). -/
def uploadLabel : String := "Upload your document"

/-- Label of the question text area (line 43). -/
def questionLabel : String := "Ask a question about the document"

/-- Placeholder of the question text area (line 44). -/
def questionPlaceholder : String :=
  "e.g., Can you give me a short summary of the document?"

/-- Spinner text (line 69). -/
def spinnerMsg : String := "Generating answer..."

/-- Model identifier sent with the request (line 71). -/
def modelName : String := "gpt-3.5-turbo"

/-- The fixed text prepended to the exception text by `st.error` at line 80
(the f-string `An error occurred: {e}`). -/
def errorHeader : String := "An error occurred: "

/-- First segment of the prompt f-string (line 61). -/
def promptInstruction : String :=
  "You are an expert at answering questions based on a provided document."

/-- Text between the instruction sentence and the document (end of line 61
plus start of line 62). -/
def promptDelim1 : String := "\n\nHere is the document:\n\n---\n\n"

/-- Text between the document and the question (end of line 62 plus line 63). -/
def promptDelim2 : String :=
  "\n\n---\n\nBased on the document, please answer the following question: "

/-- The content of the single prompt message: the f-string of lines 61-63
with `document` and `question` spliced in verbatim. -/
def promptContent (document question : String) : String :=
  promptInstruction ++ promptDelim1 ++ document ++ promptDelim2 ++ question

/-- The `messages` list built at lines 58-65: exactly one user-role message. -/
def buildMessages (document question : String) : List Message :=
  [{ role := "user", content := promptContent document question }]

/-- Error text carried by a failed decode in the model (Python raises
`UnicodeDecodeError`; only the fact that it carries a message matters). -/
def decodeErrMsg : String := "utf-8 codec cannot decode the given bytes"

/-- Whether a byte is a UTF-8 continuation byte (`0x80..0xBF`). -/
def isCont (b : Nat) : Bool := 0x80 ≤ b && b < 0xC0

/-- Strict UTF-8 decoding of a byte list into characters, modelling Python
`bytes.decode()` at line 54: rejects stray continuation bytes, truncated or
overlong sequences, surrogate code points and values above `0x10FFFF`. -/
def utf8DecodeAux : List Nat → Except String (List Char)
  | [] => Except.ok []
  | b :: rest =>
    if b < 0x80 then
      (utf8DecodeAux rest).map (fun cs => Char.ofNat b :: cs)
    else if b < 0xC0 then Except.error decodeErrMsg
    else if b < 0xE0 then
      match rest with
      | b2 :: rest2 =>
        if isCont b2 then
          let v := (b - 0xC0) * 0x40 + (b2 - 0x80)
          if v < 0x80 then Except.error decodeErrMsg
          else (utf8DecodeAux rest2).map (fun cs => Char.ofNat v :: cs)
        else Except.error decodeErrMsg
      | [] => Except.error decodeErrMsg
    else if b < 0xF0 then
      match rest with
      | b2 :: b3 :: rest3 =>
        if isCont b2 && isCont b3 then
          let v := (b - 0xE0) * 0x1000 + (b2 - 0x80) * 0x40 + (b3 - 0x80)
          if v < 0x800 then Except.error decodeErrMsg
          else if 0xD800 ≤ v && v < 0xE000 then Except.error decodeErrMsg
          else (utf8DecodeAux rest3).map (fun cs => Char.ofNat v :: cs)
        else Except.error decodeErrMsg
      | _ => Except.error decodeErrMsg
    else if b < 0xF8 then
      match rest with
      | b2 :: b3 :: b4 :: rest4 =>
        if isCont b2 && isCont b3 && isCont b4 then
          let v := (b - 0xF0) * 0x40000 + (b2 - 0x80) * 0x1000 +
            (b3 - 0x80) * 0x40 + (b4 - 0x80)
          if v < 0x10000 then Except.error decodeErrMsg
          else if 0x110000 ≤ v then Except.error decodeErrMsg
          else (utf8DecodeAux rest4).map (fun cs => Char.ofNat v :: cs)
        else Except.error decodeErrMsg
      | _ => Except.error decodeErrMsg
    else Except.error decodeErrMsg

/-- `uploaded_file.read().decode()` (line 54) as a string-valued result. -/
def utf8Decode (bytes : List Nat) : Except String String :=
  (utf8DecodeAux bytes).map fun cs => String.mk cs

/-- An uploaded file: the raw bytes `uploaded_file.read()` returns. The
Streamlit `UploadedFile` object is truthy whenever it exists, regardless of
its size, so file presence is modelled by `Option UploadedFile`. -/
structure UploadedFile where
  bytes : List Nat
deriving DecidableEq

/-- Outcome of the `st.secrets` lookup at line 16: the value found, or one of
the two exception types caught at line 17. -/
inductive SecretsResult where
  | found (value : String)
  | missingKey
  | storeUnavailable
deriving DecidableEq

/-- Behaviour of the remote service for this submission: either the stream
yields all its fragments and closes normally, or it yields some fragments and
then raises (this also covers `create` itself raising, with no fragments). -/
inductive StreamBehavior where
  | success (fragments : List String)
  | failure (fragments : List String) (err : String)
deriving DecidableEq

/-- The environment of one script execution. -/
structure Env where
  secrets : SecretsResult
  uploadedFile : Option UploadedFile
  question : String
  remote : StreamBehavior
deriving DecidableEq

/-- Observable effects of one script execution, in program order. -/
inductive Effect where
  | showTitle (t : String)
  | showText (t : String)
  | showError (msg : String) (icon : String)
  | showInfo (msg : String) (icon : String)
  | stopRun
  | makeClient (apiKey : String)
  | fileUpload (label : String) (types : List String)
  | textArea (label placeholder : String) (disabled : Bool) (height : Nat)
  | spinner (msg : String)
  | apiRequest (model : String) (messages : List Message) (stream : Bool)
  | render (content : String)
deriving DecidableEq

/-- Cumulative rendered states of `st.write_stream` (line 77) while consuming
fragments, starting from already-rendered text `acc`. -/
def cumulStates (acc : String) : List String → List String
  | [] => []
  | f :: fs => (acc ++ f) :: cumulStates (acc ++ f) fs

/-- The render effects `st.write_stream` performs on a fragment list: after
each arriving fragment the visible output is the concatenation so far. -/
def writeStreamEffects (fragments : List String) : List Effect :=
  (cumulStates "" fragments).map Effect.render

/-- Effects of the `with st.spinner` block (lines 69-77): issue the request,
then consume the stream; if the stream raises partway, the fragments already
consumed stay rendered and the exception escapes to the handler at line 79,
which displays a single error message. -/
def answerEffects (document question : String) (remote : StreamBehavior) :
    List Effect :=
  Effect.spinner spinnerMsg ::
  Effect.apiRequest modelName (buildMessages document question) true ::
  match remote with
  | .success frags => writeStreamEffects frags
  | .failure frags e =>
      writeStreamEffects frags ++ [Effect.showError (errorHeader ++ e) ("🚨")]

/-- The `try` block of lines 52-80: decode the file, build the prompt, call
the API; any exception is converted to one displayed error message. -/
def submitEffects (file : UploadedFile) (question : String)
    (remote : StreamBehavior) : List Effect :=
  match utf8Decode file.bytes with
  | .error e => [Effect.showError (errorHeader ++ e) ("🚨")]
  | .ok document => answerEffects document question remote

/-- Effects before the secret lookup: title and description (lines 6-10). -/
def headerEffects : List Effect :=
  [Effect.showTitle appTitle, Effect.showText appDescription]

/-- Lines 25-80: the branch executed once the secret lookup succeeded with
value `apiKey`. Python string truthiness: `not apiKey` iff `apiKey = ""`. -/
def mainBody (env : Env) (apiKey : String) : List Effect :=
  if apiKey = "" then [Effect.showInfo keyEmptyInfoMsg ("🗝️")]
  else
    Effect.makeClient apiKey ::
    Effect.fileUpload uploadLabel ["txt", "md"] ::
    Effect.textArea questionLabel questionPlaceholder env.uploadedFile.isNone 100 ::
    match env.uploadedFile with
    | some file =>
        if env.question = "" then []
        else submitEffects file env.question env.remote
    | none => []

/-- One full execution of the script on environment `env`. When the secret
lookup raises, the handler at lines 17-20 shows the error and calls
`st.stop()`, which ends the run: nothing after it executes. -/
def runApp (env : Env) : List Effect :=
  headerEffects ++
  match env.secrets with
  | .found key => mainBody env key
  | .missingKey => [Effect.showError keyMissingMsg ("🚨"), Effect.stopRun]
  | .storeUnavailable => [Effect.showError keyMissingMsg ("🚨"), Effect.stopRun]

/-- A session of consecutive submissions: the script is re-run from scratch
on each interaction and keeps no state between runs. -/
def runSession (envs : List Env) : List Effect :=
  (envs.map runApp).flatten

/-- Whether an effect is the outbound completion request. -/
def isApiRequest : Effect → Bool
  | .apiRequest _ _ _ => true
  | _ => false

/-- Number of outbound completion requests in an effect trace. -/
def requestCount (effects : List Effect) : Nat :=
  (effects.filter isApiRequest).length

/-- Number of displayed error messages in an effect trace. -/
def errorCount (effects : List Effect) : Nat :=
  (effects.filter fun e => match e with
    | .showError _ _ => true
    | _ => false).length

/-- The successive rendered output states appearing in an effect trace. -/
def renderedStates (effects : List Effect) : List String :=
  effects.filterMap fun e => match e with
    | .render s => some s
    | _ => none

/-- The `disabled` flags of the text areas appearing in an effect trace. -/
def disabledFlags (effects : List Effect) : List Bool :=
  effects.filterMap fun e => match e with
    | .textArea _ _ d _ => some d
    | _ => none

/-- Concatenation of a list of strings in order. -/
def strConcat : List String → String
  | [] => ""
  | s :: rest => s ++ strConcat rest

/-! ### Helper lemmas about effect traces -/

theorem requestCount_append (a b : List Effect) :
    requestCount (a ++ b) = requestCount a + requestCount b := by
  simp [requestCount, List.filter_append]

theorem errorCount_append (a b : List Effect) :
    errorCount (a ++ b) = errorCount a + errorCount b := by
  simp [errorCount, List.filter_append]

theorem renderedStates_append (a b : List Effect) :
    renderedStates (a ++ b) = renderedStates a ++ renderedStates b := by
  simp [renderedStates, List.filterMap_append]

theorem disabledFlags_append (a b : List Effect) :
    disabledFlags (a ++ b) = disabledFlags a ++ disabledFlags b := by
  simp [disabledFlags, List.filterMap_append]

theorem requestCount_renders (l : List String) :
    requestCount (l.map Effect.render) = 0 := by
  induction l with
  | nil => rfl
  | cons s t _ => simp [requestCount, List.filter, isApiRequest]

theorem errorCount_renders (l : List String) :
    errorCount (l.map Effect.render) = 0 := by
  induction l with
  | nil => rfl
  | cons s t _ => simp [errorCount, List.filter]

theorem renderedStates_renders (l : List String) :
    renderedStates (l.map Effect.render) = l := by
  induction l with
  | nil => rfl
  | cons s t ih => simp [renderedStates, List.filterMap] at ih ⊢; exact ih

theorem disabledFlags_renders (l : List String) :
    disabledFlags (l.map Effect.render) = [] := by
  induction l with
  | nil => rfl
  | cons s t _ => simp [disabledFlags, List.filterMap]

theorem stopRun_not_mem_renders (l : List String) :
    Effect.stopRun ∉ l.map Effect.render := by
  simp [List.mem_map]

@[simp] theorem requestCount_nil : requestCount [] = 0 := rfl

@[simp] theorem errorCount_nil : errorCount [] = 0 := rfl

@[simp] theorem renderedStates_nil : renderedStates [] = [] := rfl

@[simp] theorem disabledFlags_nil : disabledFlags [] = [] := rfl

theorem requestCount_cons (e : Effect) (l : List Effect) :
    requestCount (e :: l) = (if isApiRequest e then 1 else 0) + requestCount l := by
  by_cases h : isApiRequest e <;>
    simp [requestCount, List.filter_cons, h, Nat.add_comm]

theorem errorCount_cons (e : Effect) (l : List Effect) :
    errorCount (e :: l) =
      (if (match e with | .showError _ _ => true | _ => false) then 1 else 0) +
        errorCount l := by
  by_cases h : (match e with | Effect.showError _ _ => true | _ => false) = true <;>
    simp [errorCount, List.filter_cons, h, Nat.add_comm]

theorem renderedStates_cons (e : Effect) (l : List Effect) :
    renderedStates (e :: l) =
      (match e with | .render s => [s] | _ => []) ++ renderedStates l := by
  cases e <;> simp [renderedStates, List.filterMap_cons]

theorem disabledFlags_cons (e : Effect) (l : List Effect) :
    disabledFlags (e :: l) =
      (match e with | .textArea _ _ d _ => [d] | _ => []) ++ disabledFlags l := by
  cases e <;> simp [disabledFlags, List.filterMap_cons]

/-! ### Helper lemmas about the cumulative rendering of a stream -/

theorem cumulStates_eq_take_map (fs : List String) :
    ∀ acc, cumulStates acc fs =
      (List.range fs.length).map (fun i => acc ++ strConcat (List.take (i + 1) fs)) := by
  induction fs with
  | nil => intro acc; rfl
  | cons f t ih =>
    intro acc
    show (acc ++ f) :: cumulStates (acc ++ f) t
        = (List.range (f :: t).length).map
            (fun i => acc ++ strConcat (List.take (i + 1) (f :: t)))
    rw [List.length_cons, List.range_succ_eq_map, List.map_cons, List.map_map, ih (acc ++ f)]
    congr 1
    · simp [strConcat, String.append_empty]
    · apply congrArg (fun g => List.map g (List.range t.length))
      funext i
      simp [Function.comp, strConcat, String.append_assoc]

theorem cumulStates_getLast (fs : List String) :
    ∀ acc, fs ≠ [] → (cumulStates acc fs).getLast? = some (acc ++ strConcat fs) := by
  induction fs with
  | nil => intro acc h; exact absurd rfl h
  | cons f t ih =>
    intro acc _
    cases t with
    | nil =>
      show List.getLast? [acc ++ f] = some (acc ++ strConcat [f])
      simp [strConcat, String.append_empty]
    | cons f2 t2 =>
      have h1 : cumulStates acc (f :: f2 :: t2)
          = (acc ++ f) :: (acc ++ f ++ f2) :: cumulStates (acc ++ f ++ f2) t2 := rfl
      rw [h1, List.getLast?_cons_cons]
      have h2 : (acc ++ f ++ f2) :: cumulStates (acc ++ f ++ f2) t2
          = cumulStates (acc ++ f) (f2 :: t2) := rfl
      rw [h2, ih (acc ++ f) (by simp), String.append_assoc]
      rfl

theorem cumulStates_initial_segments (fs : List String) :
    ∀ acc, ∀ s ∈ cumulStates acc fs, ∃ t, s ++ t = acc ++ strConcat fs := by
  induction fs with
  | nil => intro acc s hs; exact absurd hs (by simp [cumulStates])
  | cons f t ih =>
    intro acc s hs
    rcases List.mem_cons.mp hs with h | h
    · refine ⟨strConcat t, ?_⟩
      rw [h, String.append_assoc]
      rfl
    · rcases ih (acc ++ f) s h with ⟨u, hu⟩
      refine ⟨u, ?_⟩
      rw [hu, String.append_assoc]
      rfl

/-! ### Closed form of the number of outbound requests in one run -/

theorem requestCount_runApp (env : Env) :
    requestCount (runApp env) =
      match env.secrets with
      | .found k =>
          if k = "" then 0
          else
            match env.uploadedFile with
            | some f =>
                if env.question = "" then 0
                else
                  match utf8Decode f.bytes with
                  | .ok _ => 1
                  | .error _ => 0
            | none => 0
      | _ => 0 := by
  rcases env with ⟨sec, up, q, rem⟩
  cases sec with
  | missingKey => rfl
  | storeUnavailable => rfl
  | found k =>
    by_cases hk : k = ""
    · subst hk; rfl
    · simp only [runApp, mainBody, hk, if_false, requestCount_append, requestCount_cons,
        isApiRequest]
      cases up with
      | none => simp [headerEffects, requestCount_cons, isApiRequest]
      | some f =>
        by_cases hq : q = ""
        · simp [hq, headerEffects, requestCount_cons, isApiRequest]
        · simp only [hq, if_false]
          cases hdec : utf8Decode f.bytes with
          | error e =>
            simp [submitEffects, hdec, headerEffects, requestCount_cons, isApiRequest]
          | ok d =>
            cases rem with
            | success frags =>
              simp [submitEffects, hdec, answerEffects, writeStreamEffects, headerEffects,
                requestCount_cons, requestCount_append, requestCount_renders, isApiRequest]
            | failure frags e =>
              simp [submitEffects, hdec, answerEffects, writeStreamEffects, headerEffects,
                requestCount_cons, requestCount_append, requestCount_renders, isApiRequest]

/-! ### Claims -/

/-- C1: for every non-empty document string `D` and non-empty question string
`Q`, the prompt builder produces exactly one message, of role "user", whose
content is the fixed instruction sentence, a delimiter, the verbatim text of
`D`, a second delimiter, and the verbatim text of `Q`, concatenated in that
order with no escaping or truncation of `D` or `Q`. -/
theorem C1_prompt_single_user_message (D Q : String) (hD : D ≠ "") (hQ : Q ≠ "") :
    buildMessages D Q =
      [{ role := "user",
         content := promptInstruction ++ promptDelim1 ++ D ++ promptDelim2 ++ Q }] := rfl

/-- Witness for C1 at the spec's example document and question. -/
theorem C1_witness :
    buildMessages ("The sky is blue.") ("What color is the sky?") =
      [{ role := "user",
         content := promptInstruction ++ promptDelim1 ++ ("The sky is blue.") ++
           promptDelim2 ++ ("What color is the sky?") }] :=
  C1_prompt_single_user_message ("The sky is blue.") ("What color is the sky?")
    (by decide) (by decide)

/-- An environment whose uploaded file is empty (zero bytes, decoding to the
empty Document) while the question is non-empty and the credential is fine. -/
def envEmptyDoc : Env :=
  { secrets := SecretsResult.found ("sk-test"),
    uploadedFile := some { bytes := [] },
    question := "What color is the sky?",
    remote := StreamBehavior.success ["The sky is blue."] }

/-- C2 counterexample: the claim says no request is issued when the Document
(the decoded file content) is empty, but uploading a zero-byte file with a
non-empty question issues exactly one request: the guard at line 51 tests
presence of the file object, not non-emptiness of its decoded content. -/
theorem C2_counterexample :
    envEmptyDoc.uploadedFile = some { bytes := [] } ∧
    utf8Decode [] = Except.ok ("") ∧
    envEmptyDoc.question ≠ "" ∧
    requestCount (runApp envEmptyDoc) = 1 :=
  ⟨rfl, rfl, by decide, rfl⟩

/-- C2 amended: a completion request is issued exactly when the credential
was found with a non-empty value, a file is present whose bytes decode
successfully (the decoded Document may be the empty string), and the
question string is non-empty. -/
theorem C2_request_iff (env : Env) :
    0 < requestCount (runApp env) ↔
      (∃ k, env.secrets = SecretsResult.found k ∧ k ≠ "") ∧
      (∃ f d, env.uploadedFile = some f ∧ utf8Decode f.bytes = Except.ok d) ∧
      env.question ≠ "" := by
  rw [requestCount_runApp]
  rcases env with ⟨sec, up, q, rem⟩
  cases sec with
  | missingKey => simp
  | storeUnavailable => simp
  | found k =>
    by_cases hk : k = ""
    · subst hk; simp
    · simp only [hk, if_false]
      cases up with
      | none => simp [hk]
      | some f =>
        by_cases hq : q = ""
        · simp [hq, hk]
        · simp only [hq, if_false]
          cases hdec : utf8Decode f.bytes with
          | error e => simp [hk, hq, hdec]
          | ok d => simp [hk, hq, hdec]

/-- Witness for the amended C2 at the empty-document environment. -/
theorem C2_witness :
    0 < requestCount (runApp envEmptyDoc) ↔
      (∃ k, envEmptyDoc.secrets = SecretsResult.found k ∧ k ≠ "") ∧
      (∃ f d, envEmptyDoc.uploadedFile = some f ∧ utf8Decode f.bytes = Except.ok d) ∧
      envEmptyDoc.question ≠ "" :=
  C2_request_iff envEmptyDoc

/-- Expansion of one run when the credential is fine, a file is present and a
question was asked: header, client, widgets, then the submission handler. -/
theorem runApp_found_submit (env : Env) (k : String) (f : UploadedFile)
    (hs : env.secrets = SecretsResult.found k) (hk : k ≠ "")
    (hf : env.uploadedFile = some f) (hq : env.question ≠ "") :
    runApp env = headerEffects ++
      Effect.makeClient k ::
      Effect.fileUpload uploadLabel ["txt", "md"] ::
      Effect.textArea questionLabel questionPlaceholder false 100 ::
      submitEffects f env.question env.remote := by
  simp [runApp, hs, mainBody, hk, hf, hq]

/-- C3: any exception raised during document decoding (or the remote
call/stream, see the disjunct) is caught at the top level of the submission
handler and becomes a single displayed error message whose text extends the
underlying error text; the run produces no stop effect (the process is not
terminated by an unhandled fault). -/
theorem C3_exception_displayed (env : Env) (k : String) (f : UploadedFile) (e : String)
    (hs : env.secrets = SecretsResult.found k) (hk : k ≠ "")
    (hf : env.uploadedFile = some f) (hq : env.question ≠ "")
    (herr : utf8Decode f.bytes = Except.error e ∨
      ((∃ d, utf8Decode f.bytes = Except.ok d) ∧
        ∃ frags, env.remote = StreamBehavior.failure frags e)) :
    errorCount (runApp env) = 1 ∧
    (∃ pre, runApp env = pre ++ [Effect.showError (errorHeader ++ e) ("🚨")]) ∧
    Effect.stopRun ∉ runApp env := by
  rw [runApp_found_submit env k f hs hk hf hq]
  rcases herr with hdec | ⟨⟨d, hdec⟩, frags, hrem⟩
  · simp only [submitEffects, hdec]
    refine ⟨?_, ⟨headerEffects ++ [Effect.makeClient k,
      Effect.fileUpload uploadLabel ["txt", "md"],
      Effect.textArea questionLabel questionPlaceholder false 100], by simp⟩, ?_⟩
    · simp [errorCount_append, errorCount_cons, headerEffects]
    · simp [headerEffects]
  · simp only [submitEffects, hdec, hrem, answerEffects]
    refine ⟨?_, ⟨headerEffects ++
      Effect.makeClient k ::
      Effect.fileUpload uploadLabel ["txt", "md"] ::
      Effect.textArea questionLabel questionPlaceholder false 100 ::
      Effect.spinner spinnerMsg ::
      Effect.apiRequest modelName (buildMessages d env.question) true ::
      writeStreamEffects frags, by simp⟩, ?_⟩
    · simp [errorCount_append, errorCount_cons, headerEffects, writeStreamEffects,
        errorCount_renders]
    · simp [headerEffects, writeStreamEffects, List.mem_map]

/-- Environment for the C3 witness: the uploaded bytes are not valid UTF-8,
so decoding raises before any remote call. -/
def envC3 : Env :=
  { secrets := SecretsResult.found ("sk-test"),
    uploadedFile := some { bytes := [255] },
    question := "What color is the sky?",
    remote := StreamBehavior.success [] }

/-- Witness for C3 at a concrete decode failure. -/
theorem C3_witness :
    errorCount (runApp envC3) = 1 ∧
    (∃ pre, runApp envC3 = pre ++
      [Effect.showError (errorHeader ++ decodeErrMsg) ("🚨")]) ∧
    Effect.stopRun ∉ runApp envC3 :=
  C3_exception_displayed envC3 ("sk-test") { bytes := [255] } decodeErrMsg
    rfl (by decide) rfl (by decide) (Or.inl rfl)

/-- C4: when the secret lookup raises (key missing or store unavailable), the
run shows the configuration error and stops; no remote call is attempted and
no upload control, question input or completion client is reachable. -/
theorem C4_missing_credential (env : Env)
    (h : env.secrets = SecretsResult.missingKey ∨
      env.secrets = SecretsResult.storeUnavailable) :
    runApp env = headerEffects ++
      [Effect.showError keyMissingMsg ("🚨"), Effect.stopRun] ∧
    requestCount (runApp env) = 0 ∧
    (∀ l t, Effect.fileUpload l t ∉ runApp env) ∧
    (∀ l p dis ht, Effect.textArea l p dis ht ∉ runApp env) ∧
    (∀ k, Effect.makeClient k ∉ runApp env) := by
  have hrun : runApp env = headerEffects ++
      [Effect.showError keyMissingMsg ("🚨"), Effect.stopRun] := by
    rcases h with h | h <;> simp [runApp, h]
  rw [hrun]
  refine ⟨rfl, rfl, ?_, ?_, ?_⟩ <;> simp [headerEffects]

/-- Environment for the C4 witness: the key is absent from the store. -/
def envC4 : Env :=
  { secrets := SecretsResult.missingKey,
    uploadedFile := some { bytes := [72, 105] },
    question := "anything",
    remote := StreamBehavior.success ["unused"] }

/-- Witness for C4 at a concrete missing-key environment. -/
theorem C4_witness :
    runApp envC4 = headerEffects ++
      [Effect.showError keyMissingMsg ("🚨"), Effect.stopRun] ∧
    requestCount (runApp envC4) = 0 ∧
    (∀ l t, Effect.fileUpload l t ∉ runApp envC4) ∧
    (∀ l p dis ht, Effect.textArea l p dis ht ∉ runApp envC4) ∧
    (∀ k, Effect.makeClient k ∉ runApp envC4) :=
  C4_missing_credential envC4 (Or.inl rfl)

/-- C5: for a successful streamed response, the rendered states are, in
arrival order, the concatenations of the first `i + 1` fragments (each
fragment appended as it arrives), the state after the stream closes is the
concatenation of all fragments, and every intermediate state is an initial
segment of the final output. -/
theorem C5_streaming_render (env : Env) (k : String) (f : UploadedFile) (d : String)
    (frags : List String)
    (hs : env.secrets = SecretsResult.found k) (hk : k ≠ "")
    (hf : env.uploadedFile = some f) (hq : env.question ≠ "")
    (hd : utf8Decode f.bytes = Except.ok d)
    (hr : env.remote = StreamBehavior.success frags) :
    renderedStates (runApp env) =
      (List.range frags.length).map (fun i => strConcat (List.take (i + 1) frags)) ∧
    (frags ≠ [] → (renderedStates (runApp env)).getLast? = some (strConcat frags)) ∧
    (∀ s ∈ renderedStates (runApp env), ∃ t, s ++ t = strConcat frags) := by
  have hws : renderedStates (runApp env) = cumulStates ("") frags := by
    rw [runApp_found_submit env k f hs hk hf hq]
    simp only [submitEffects, hd, hr, answerEffects]
    simp [renderedStates_append, renderedStates_cons, headerEffects, writeStreamEffects,
      renderedStates_renders]
  refine ⟨?_, ?_, ?_⟩
  · rw [hws, cumulStates_eq_take_map frags ("")]
    apply congrArg (fun g => List.map g (List.range frags.length))
    funext i
    exact String.empty_append _
  · intro hne
    rw [hws, cumulStates_getLast frags ("") hne, String.empty_append]
  · intro s hsmem
    rw [hws] at hsmem
    rcases cumulStates_initial_segments frags ("") s hsmem with ⟨t, ht⟩
    refine ⟨t, ?_⟩
    rw [ht, String.empty_append]

/-- Environment for the C5 witness: the stream of the spec's example. -/
def envC5 : Env :=
  { secrets := SecretsResult.found ("sk-test"),
    uploadedFile := some { bytes := [] },
    question := "What color is the sky?",
    remote := StreamBehavior.success ["The ", "sky ", "is blue."] }

/-- Witness for C5 at the spec's example fragment list. -/
theorem C5_witness :
    renderedStates (runApp envC5) =
      (List.range (["The ", "sky ", "is blue."] : List String).length).map
        (fun i => strConcat (List.take (i + 1) ["The ", "sky ", "is blue."])) ∧
    ((["The ", "sky ", "is blue."] : List String) ≠ [] →
      (renderedStates (runApp envC5)).getLast? =
        some (strConcat ["The ", "sky ", "is blue."])) ∧
    (∀ s ∈ renderedStates (runApp envC5),
      ∃ t, s ++ t = strConcat ["The ", "sky ", "is blue."]) :=
  C5_streaming_render envC5 ("sk-test") { bytes := [] } ("")
    ["The ", "sky ", "is blue."] rfl (by decide) rfl (by decide) rfl rfl

/-- C6: when the stream fails after yielding some fragments, the whole run is
the run that a successful stream over exactly those fragments would have
produced, plus one appended error message: the already-rendered partial
output is unchanged (no rollback). -/
theorem C6_no_rollback (env : Env) (k : String) (f : UploadedFile) (d : String)
    (frags : List String) (e : String)
    (hs : env.secrets = SecretsResult.found k) (hk : k ≠ "")
    (hf : env.uploadedFile = some f) (hq : env.question ≠ "")
    (hd : utf8Decode f.bytes = Except.ok d)
    (hr : env.remote = StreamBehavior.failure frags e) :
    runApp env =
      runApp { env with remote := StreamBehavior.success frags } ++
        [Effect.showError (errorHeader ++ e) ("🚨")] ∧
    renderedStates (runApp env) =
      renderedStates (runApp { env with remote := StreamBehavior.success frags }) := by
  have h1 : runApp env =
      runApp { env with remote := StreamBehavior.success frags } ++
        [Effect.showError (errorHeader ++ e) ("🚨")] := by
    rw [runApp_found_submit env k f hs hk hf hq,
      runApp_found_submit { env with remote := StreamBehavior.success frags } k f hs hk hf hq]
    simp only [hr, submitEffects, hd, answerEffects]
    simp [List.append_assoc]
  refine ⟨h1, ?_⟩
  rw [h1, renderedStates_append]
  simp [renderedStates_cons]

/-- Environment for the C6 witness: the stream yields one fragment and fails. -/
def envC6 : Env :=
  { secrets := SecretsResult.found ("sk-test"),
    uploadedFile := some { bytes := [] },
    question := "What color is the sky?",
    remote := StreamBehavior.failure ["The "] ("rate limit exceeded") }

/-- Witness for C6 at a concrete mid-stream failure. -/
theorem C6_witness :
    runApp envC6 =
      runApp { envC6 with remote := StreamBehavior.success ["The "] } ++
        [Effect.showError (errorHeader ++ ("rate limit exceeded")) ("🚨")] ∧
    renderedStates (runApp envC6) =
      renderedStates (runApp { envC6 with remote := StreamBehavior.success ["The "] }) :=
  C6_no_rollback envC6 ("sk-test") { bytes := [] } ("") ["The "]
    ("rate limit exceeded") rfl (by decide) rfl (by decide) rfl rfl

/-- C7: once the credential is loaded (non-empty), the run shows exactly one
question input, and its `disabled` flag is set exactly when no file has been
uploaded. -/
theorem C7_question_gating (env : Env) (k : String)
    (hs : env.secrets = SecretsResult.found k) (hk : k ≠ "") :
    disabledFlags (runApp env) = [env.uploadedFile.isNone] ∧
    (env.uploadedFile = none → disabledFlags (runApp env) = [true]) ∧
    (∀ f, env.uploadedFile = some f → disabledFlags (runApp env) = [false]) := by
  have h1 : disabledFlags (runApp env) = [env.uploadedFile.isNone] := by
    simp only [runApp, hs, mainBody, hk, if_false]
    cases hup : env.uploadedFile with
    | none => simp [headerEffects, disabledFlags_append, disabledFlags_cons]
    | some f =>
      by_cases hq : env.question = ""
      · simp [hq, headerEffects, disabledFlags_append, disabledFlags_cons]
      · cases hdec : utf8Decode f.bytes with
        | error e =>
          simp [hq, submitEffects, hdec, headerEffects, disabledFlags_append,
            disabledFlags_cons]
        | ok d =>
          cases hrem : env.remote <;>
            simp [hq, submitEffects, hdec, answerEffects, writeStreamEffects,
              headerEffects, disabledFlags_append, disabledFlags_cons,
              disabledFlags_renders]
  refine ⟨h1, ?_, ?_⟩
  · intro h
    rw [h1, h]
    rfl
  · intro f hf
    rw [h1, hf]
    rfl

/-- Environment for the C7 witness: credential fine, no file uploaded. -/
def envC7 : Env :=
  { secrets := SecretsResult.found ("sk-test"),
    uploadedFile := none,
    question := "",
    remote := StreamBehavior.success [] }

/-- Witness for C7 with no uploaded file: the single question input is
disabled. -/
theorem C7_witness :
    disabledFlags (runApp envC7) = [envC7.uploadedFile.isNone] ∧
    (envC7.uploadedFile = none → disabledFlags (runApp envC7) = [true]) ∧
    (∀ f, envC7.uploadedFile = some f → disabledFlags (runApp envC7) = [false]) :=
  C7_question_gating envC7 ("sk-test") rfl (by decide)

/-- C8: a run with both inputs present issues exactly one outbound request,
and a session of two identical submissions is exactly two independent runs,
issuing two requests: the script keeps no state between submissions. -/
theorem C8_no_caching (env : Env) (k : String) (f : UploadedFile) (d : String)
    (hs : env.secrets = SecretsResult.found k) (hk : k ≠ "")
    (hf : env.uploadedFile = some f) (hd : utf8Decode f.bytes = Except.ok d)
    (hq : env.question ≠ "") :
    requestCount (runApp env) = 1 ∧
    runSession [env, env] = runApp env ++ runApp env ∧
    requestCount (runSession [env, env]) = 2 := by
  have h1 : requestCount (runApp env) = 1 := by
    rw [requestCount_runApp]
    simp [hs, hk, hf, hq, hd]
  have h2 : runSession [env, env] = runApp env ++ runApp env := by
    simp [runSession]
  refine ⟨h1, h2, ?_⟩
  rw [h2, requestCount_append, h1]

/-- Environment for the C8 witness. -/
def envC8 : Env :=
  { secrets := SecretsResult.found ("sk-test"),
    uploadedFile := some { bytes := [72, 105] },
    question := "What does it say?",
    remote := StreamBehavior.success ["Hi"] }

/-- Witness for C8 at a concrete submission repeated twice. -/
theorem C8_witness :
    requestCount (runApp envC8) = 1 ∧
    runSession [envC8, envC8] = runApp envC8 ++ runApp envC8 ∧
    requestCount (runSession [envC8, envC8]) = 2 :=
  C8_no_caching envC8 ("sk-test") { bytes := [72, 105] } ("Hi")
    rfl (by decide) rfl rfl (by decide)

/-- C9: when the key is present in the store but its value is empty (falsy),
the run shows the informational prompt, does not stop, shows no error,
constructs no client and issues no request. -/
theorem C9_empty_key_info (env : Env)
    (hs : env.secrets = SecretsResult.found ("")) :
    runApp env = headerEffects ++ [Effect.showInfo keyEmptyInfoMsg ("🗝️")] ∧
    Effect.stopRun ∉ runApp env ∧
    errorCount (runApp env) = 0 ∧
    (∀ k, Effect.makeClient k ∉ runApp env) ∧
    requestCount (runApp env) = 0 := by
  have h1 : runApp env = headerEffects ++ [Effect.showInfo keyEmptyInfoMsg ("🗝️")] := by
    simp [runApp, hs, mainBody]
  rw [h1]
  refine ⟨rfl, ?_, rfl, ?_, rfl⟩ <;> simp [headerEffects]

/-- Environment for the C9 witness: the key exists with an empty value. -/
def envC9 : Env :=
  { secrets := SecretsResult.found (""),
    uploadedFile := some { bytes := [72] },
    question := "anything",
    remote := StreamBehavior.success ["unused"] }

/-- Witness for C9 at a concrete empty-valued key. -/
theorem C9_witness :
    runApp envC9 = headerEffects ++ [Effect.showInfo keyEmptyInfoMsg ("🗝️")] ∧
    Effect.stopRun ∉ runApp envC9 ∧
    errorCount (runApp envC9) = 0 ∧
    (∀ k, Effect.makeClient k ∉ runApp envC9) ∧
    requestCount (runApp envC9) = 0 :=
  C9_empty_key_info envC9 rfl

/-- C10: when decoding the uploaded bytes raises, the submission issues no
outbound request at all: the run is exactly the widgets followed by the
single error message, with the request never opened. -/
theorem C10_decode_failure_no_request (env : Env) (k : String) (f : UploadedFile)
    (e : String)
    (hs : env.secrets = SecretsResult.found k) (hk : k ≠ "")
    (hf : env.uploadedFile = some f) (hq : env.question ≠ "")
    (hd : utf8Decode f.bytes = Except.error e) :
    requestCount (runApp env) = 0 ∧
    runApp env = headerEffects ++
      [Effect.makeClient k, Effect.fileUpload uploadLabel ["txt", "md"],
       Effect.textArea questionLabel questionPlaceholder false 100,
       Effect.showError (errorHeader ++ e) ("🚨")] := by
  have h2 : runApp env = headerEffects ++
      [Effect.makeClient k, Effect.fileUpload uploadLabel ["txt", "md"],
       Effect.textArea questionLabel questionPlaceholder false 100,
       Effect.showError (errorHeader ++ e) ("🚨")] := by
    rw [runApp_found_submit env k f hs hk hf hq]
    simp [submitEffects, hd]
  refine ⟨?_, h2⟩
  rw [h2]
  rfl

/-- Environment for the C10 witness: a truncated UTF-8 sequence that fails to
decode. -/
def envC10 : Env :=
  { secrets := SecretsResult.found ("sk-test"),
    uploadedFile := some { bytes := [195] },
    question := "What does it say?",
    remote := StreamBehavior.success ["unused"] }

/-- Witness for C10 at a concrete undecodable file. -/
theorem C10_witness :
    requestCount (runApp envC10) = 0 ∧
    runApp envC10 = headerEffects ++
      [Effect.makeClient ("sk-test"), Effect.fileUpload uploadLabel ["txt", "md"],
       Effect.textArea questionLabel questionPlaceholder false 100,
       Effect.showError (errorHeader ++ decodeErrMsg) ("🚨")] :=
  C10_decode_failure_no_request envC10 ("sk-test") { bytes := [195] } decodeErrMsg
    rfl (by decide) rfl (by decide) rfl

end GameRuleQA
